import Mathlib

/-!
Verification development for the HTML2Figma repository.

The repository has two JavaScript components sharing one IR schema:
* `scrape.js` — in-browser style extraction; its core is a family of pure
  string parsers (`parseColor`, `parseGradient`, `parseBoxShadow`,
  `splitGradientParts`, `directionToAngle`, `parseColorStop`).
* the Figma plugin (`src/unnamed/part_000`) — the materializer; its core is
  `sanitizeFills`, `handlePositionsToTransform`, `applyEffects`,
  `createTextNode`, `createFrameNode` and the `figma.ui.onmessage` handler.

Modeling conventions:
* JavaScript numbers are modeled as exact rationals (`ℚ`); `NaN` is modeled
  as `none` in `Option ℚ` where it can arise (the scraper-side `parseFloat`).
* `undefined` / absent JSON fields are modeled as `none`.
* JavaScript regular-expression matching is modeled by direct leftmost-match
  scanners over `List Char`, specialized to the literal patterns appearing in
  the source.
* `Math.cos` / `Math.sin` are transcendental floating-point functions with no
  exact executable model; they are taken as parameters (`mcos`, `msin`) of the
  gradient parser.  No claim below depends on their values.
-/

/-! ## Character-class helpers (JS `\s`, `[\d.]` for the patterns in scrape.js) -/

/-- JS `\s` restricted to the ASCII whitespace that can occur in computed-style
strings. -/
def isWS (c : Char) : Bool :=
  c = ' ' || c = '\t' || c = '\n' || c = '\r'

/-- The regex character class `[\d.]`. -/
def isDigitDot (c : Char) : Bool :=
  c.isDigit || c = '.'

/-- Whether `s` starts with `pat` (JS `String.startsWith`), as `startsWithL pat s`. -/
def startsWithL : List Char → List Char → Bool
  | [], _ => true
  | _ :: _, [] => false
  | p :: ps, c :: cs => p = c && startsWithL ps cs

/-- JS `String.trim` (over our ASCII whitespace class). -/
def trimChars (cs : List Char) : List Char :=
  ((cs.dropWhile isWS).reverse.dropWhile isWS).reverse

/-- Numeric value of a digit string (most significant digit first). -/
def digitsN (cs : List Char) : ℕ :=
  cs.foldl (fun a c => 10 * a + (c.toNat - 48)) 0

/-! Rational arithmetic written in a kernel-reducible normal form.  The
standard `Rat` operations are `@[irreducible]`; the helpers below compute the
same values through `mkRat`, and the lemmas beside them show they agree with
the ordinary field operations, so statements can be phrased with `/`, `-`,
`max`, `min` while definitions stay executable by `decide`. -/

/-- Division `q / n` by a natural constant `n` (`qdivN_eq` below). -/
def qdivN (q : ℚ) (n : ℕ) : ℚ := mkRat q.num (q.den * n)

/-- Subtraction `a - b` on `ℚ` (`qsub_eq` below). -/
def qsub (a b : ℚ) : ℚ := mkRat (a.num * b.den - b.num * a.den) (a.den * b.den)

/-- Multiplication `a * b` on `ℚ` (`qmul_eq` below). -/
def qmul (a b : ℚ) : ℚ := mkRat (a.num * b.num) (a.den * b.den)

/-- Model of `Math.max` on (non-`NaN`) JS numbers (`jsMax_eq` below). -/
def jsMax (a b : ℚ) : ℚ := if a ≤ b then b else a

/-- Model of `Math.min` on (non-`NaN`) JS numbers (`jsMin_eq` below). -/
def jsMin (a b : ℚ) : ℚ := if a ≤ b then a else b

/-- JS `parseFloat` restricted to tokens drawn from the class `[\d.]`
(the only tokens the scraper ever feeds it, after the sign is stripped).
Result `none` models `NaN` (token `"."`). `parseFloat` reads leading digits,
then an optional `.` followed by digits, and ignores the rest of the token;
the value of `d1.d2` is the rational `(d1 * 10 ^ k + d2) / 10 ^ k` with `k`
the number of fractional digits. -/
def jsParseFloat (cs : List Char) : Option ℚ :=
  let d1 := cs.takeWhile Char.isDigit
  match cs.dropWhile Char.isDigit with
  | '.' :: r2 =>
    let d2 := r2.takeWhile Char.isDigit
    if d1.isEmpty && d2.isEmpty then none
    else some (mkRat (digitsN d1 * 10 ^ d2.length + digitsN d2) (10 ^ d2.length))
  | _ => if d1.isEmpty then none else some ((digitsN d1 : ℚ))

/-! ## scrape.js `parseColor`

```js
function parseColor(colorStr) {
    if (!colorStr || colorStr === 'transparent' || colorStr === 'rgba(0, 0, 0, 0)') {
        return null;
    }
    const rgbaMatch = colorStr.match(/rgba?\(\s*([\d.]+),\s*([\d.]+),\s*([\d.]+)(?:,\s*([\d.]+))?\s*\)/);
    if (rgbaMatch) {
        return {
            r: parseFloat(rgbaMatch[1]) / 255, ...,
            a: rgbaMatch[4] !== undefined ? parseFloat(rgbaMatch[4]) : 1
        };
    }
    return null;
}
```
-/

/-- The four captured groups of the `rgba?` regex: three channel tokens and an
optional alpha token. -/
abbrev ColorCaps := List Char × List Char × List Char × Option (List Char)

/-- Match the tail of the `rgba?\(\s*([\d.]+),\s*([\d.]+),\s*([\d.]+)(?:,\s*([\d.]+))?\s*\)`
pattern, starting just after the opening parenthesis. -/
def matchArgs (cs : List Char) : Option ColorCaps :=
  let cs1 := cs.dropWhile isWS
  let t1 := cs1.takeWhile isDigitDot
  if t1.isEmpty then none else
  match cs1.dropWhile isDigitDot with
  | ',' :: r2 =>
    let cs2 := r2.dropWhile isWS
    let t2 := cs2.takeWhile isDigitDot
    if t2.isEmpty then none else
    match cs2.dropWhile isDigitDot with
    | ',' :: r4 =>
      let cs3 := r4.dropWhile isWS
      let t3 := cs3.takeWhile isDigitDot
      if t3.isEmpty then none else
      match cs3.dropWhile isDigitDot with
      | ',' :: r6 =>
        let cs4 := r6.dropWhile isWS
        let t4 := cs4.takeWhile isDigitDot
        if t4.isEmpty then none else
        match (cs4.dropWhile isDigitDot).dropWhile isWS with
        | ')' :: _ => some (t1, t2, t3, some t4)
        | _ => none
      | rest =>
        match rest.dropWhile isWS with
        | ')' :: _ => some (t1, t2, t3, none)
        | _ => none
    | _ => none
  | _ => none

/-- Attempt the color regex at the current position: `rgba?\(` then arguments. -/
def tryColorHere : List Char → Option ColorCaps
  | 'r' :: 'g' :: 'b' :: 'a' :: '(' :: t => matchArgs t
  | 'r' :: 'g' :: 'b' :: '(' :: t => matchArgs t
  | _ => none

/-- Leftmost match of the color regex (JS `String.match` semantics). -/
def findColorMatch : List Char → Option ColorCaps
  | [] => none
  | c :: rest =>
    match tryColorHere (c :: rest) with
    | some caps => some caps
    | none => findColorMatch rest

/-- The RGBA record built by `parseColor`.  Channels are `Option ℚ` because
`parseFloat` can yield `NaN` (modeled `none`) on a token such as `"."`. -/
structure RGBAjs where
  r : Option ℚ
  g : Option ℚ
  b : Option ℚ
  a : Option ℚ
deriving DecidableEq

/-- Model of `parseColor` over a character list. -/
def parseColorL (cs : List Char) : Option RGBAjs :=
  if cs.isEmpty ∨ cs = "transparent".data ∨ cs = "rgba(0, 0, 0, 0)".data then none
  else
    match findColorMatch cs with
    | some (t1, t2, t3, t4) =>
      some { r := (jsParseFloat t1).map (fun q => qdivN q 255)
             g := (jsParseFloat t2).map (fun q => qdivN q 255)
             b := (jsParseFloat t3).map (fun q => qdivN q 255)
             a := match t4 with
                  | some t => jsParseFloat t
                  | none => some 1 }
    | none => none

/-- Model of `parseColor` from scrape.js. -/
def parseColor (s : String) : Option RGBAjs :=
  parseColorL s.data

/-! ## scrape.js `splitGradientParts`

```js
function splitGradientParts(str) {
    const parts = [];
    let depth = 0;
    let current = '';
    for (const ch of str) {
        if (ch === '(') depth++;
        else if (ch === ')') depth--;
        if (ch === ',' && depth === 0) {
            parts.push(current);
            current = '';
        } else {
            current += ch;
        }
    }
    if (current) parts.push(current);
    return parts;
}
```
-/

/-- The loop of `splitGradientParts`: remaining input, current depth,
current accumulated part. -/
def splitAux : List Char → ℤ → List Char → List (List Char)
  | [], _, cur => if cur.isEmpty then [] else [cur]
  | ch :: rest, depth, cur =>
    let d := if ch = '(' then depth + 1 else if ch = ')' then depth - 1 else depth
    if ch = ',' ∧ d = 0 then cur :: splitAux rest d []
    else splitAux rest d (cur ++ [ch])

/-- Model of `splitGradientParts` from scrape.js. -/
def splitGradientParts (cs : List Char) : List (List Char) :=
  splitAux cs 0 []

/-! ## scrape.js `directionToAngle`

```js
function directionToAngle(dir) {
    const map = {
        'to top': 0, 'to right': 90, 'to bottom': 180, 'to left': 270,
        'to top right': 45, 'to top left': 315,
        'to bottom right': 135, 'to bottom left': 225
    };
    return map[dir] || 180;
}
```
-/

/-- The literal direction table of `directionToAngle`. -/
def directionMap : List (String × ℚ) :=
  [("to top", 0), ("to right", 90), ("to bottom", 180), ("to left", 270),
   ("to top right", 45), ("to top left", 315),
   ("to bottom right", 135), ("to bottom left", 225)]

/-- Evaluation of `x || d` on JS numbers (`0` and `NaN` are falsy; `undefined` is `none`). -/
def orDQ (x : Option ℚ) (d : ℚ) : ℚ :=
  match x with
  | some q => if q = 0 then d else q
  | none => d

/-- Model of `directionToAngle` from scrape.js. `map[dir]` is `undefined` off the table,
and `|| 180` replaces both `undefined` and the falsy value `0`. -/
def directionToAngle (dir : String) : ℚ :=
  orDQ (directionMap.lookup dir) 180

/-! ## scrape.js gradient parsing

`parseGradient` dispatches on `/linear-gradient\(([^)]+)\)/` then
`/radial-gradient\(([^)]+)\)/`; the captured group stops at the first `)` of
the whole string.  `parseLinearGradient` splits on top-level commas, reads an
optional angle (`/^([\d.]+)deg$/`) or `to ...` keyword direction, parses the
remaining parts as color stops, and (when at least two stops survive) converts
the angle to three gradient handle points using `Math.cos` / `Math.sin`
(abstracted below as `mcos` / `msin`) and `Math.PI` (whose float64 value is the
exact rational `jsPI`). -/

/-- The exact rational value of the float64 constant `Math.PI`. -/
def jsPI : ℚ := 884279719003555 / 281474976710656

/-- Scan for the leftmost occurrence of `name ++ "("`, returning the regex
capture `[^)]+` (the characters strictly before the first following `)`), or
`none` when no position admits a complete match. -/
def findFuncCapture (name : List Char) : List Char → Option (List Char)
  | [] => none
  | c :: rest =>
    if startsWithL (name ++ ['(']) (c :: rest) then
      let t := (c :: rest).drop (name.length + 1)
      let content := t.takeWhile (fun x => x ≠ ')')
      match t.dropWhile (fun x => x ≠ ')') with
      | ')' :: _ => if content.isEmpty then findFuncCapture name rest else some content
      | _ => findFuncCapture name rest
    else findFuncCapture name rest

/-- A gradient color stop as produced by scrape.js (`{color: {r,g,b,a}, position}`). -/
structure JSStop where
  r : Option ℚ
  g : Option ℚ
  b : Option ℚ
  a : Option ℚ
  position : Option ℚ
deriving DecidableEq

/-- A 2-D handle point (coordinates are `Option ℚ`: `none` models `NaN`,
which arises when the angle token parses to `NaN`). -/
structure JSPoint where
  x : Option ℚ
  y : Option ℚ
deriving DecidableEq

/-- A gradient paint as produced by scrape.js. -/
structure JSGradient where
  type : String
  gradientStops : List JSStop
  gradientHandlePositions : List JSPoint
deriving DecidableEq

/-- Model of `parseColorStop` from scrape.js:

```js
function parseColorStop(str, index, total) {
    let position = total > 1 ? index / (total - 1) : 0;
    const percentMatch = str.match(/([\d.]+)%\s*$/);
    if (percentMatch) {
        position = parseFloat(percentMatch[1]) / 100;
        str = str.replace(/([\d.]+)%\s*$/, '').trim();
    }
    const color = parseColor(str);
    return { color, position };
}
```

The trailing-percent regex is matched on the reversed string: optional
whitespace, `%`, then a nonempty `[\d.]+` token. -/
def parseColorStop (str : List Char) (index total : ℕ) :
    Option RGBAjs × Option ℚ :=
  let position : Option ℚ :=
    if 1 < total then some (mkRat index (total - 1)) else some 0
  let rev := str.reverse
  let rev1 := rev.dropWhile isWS
  match rev1 with
  | '%' :: rev2 =>
    let tokRev := rev2.takeWhile isDigitDot
    if tokRev.isEmpty then (parseColorL str, position)
    else
      let tok := tokRev.reverse
      let str2 := trimChars (rev2.dropWhile isDigitDot).reverse
      (parseColorL str2, (jsParseFloat tok).map (fun q => qdivN q 100))
  | _ => (parseColorL str, position)

/-- The stop-collection loop common to the linear and radial parsers: each
part is trimmed, parsed as a color stop, and kept only when its color parsed. -/
def collectStops (colorParts : List (List Char)) : List JSStop :=
  let total := colorParts.length
  colorParts.enum.filterMap (fun p =>
    match parseColorStop (trimChars p.2) p.1 total with
    | (some c, pos) => some ⟨c.r, c.g, c.b, c.a, pos⟩
    | (none, _) => none)

/-- Model of `parseLinearGradient` from scrape.js, with `Math.cos`/`Math.sin` abstracted
as `mcos`/`msin` (NaN-propagating, hence `Option ℚ → Option ℚ` liftings of the
given real functions). -/
def parseLinearGradient (mcos msin : ℚ → ℚ) (content : List Char) :
    Option JSGradient :=
  let parts := splitGradientParts content
  if parts.length < 2 then none
  else
    let first := trimChars (parts.headI)
    let angleTok := first.takeWhile isDigitDot
    let angleInfo : Option ℚ × ℕ :=
      if ¬angleTok.isEmpty ∧ first.dropWhile isDigitDot = "deg".data then
        (jsParseFloat angleTok, 1)
      else if startsWithL "to ".data first then
        (some (directionToAngle (String.mk first)), 1)
      else (some 180, 0)
    let stops := collectStops (parts.drop angleInfo.2)
    if stops.length < 2 then none
    else
      let angleRad := angleInfo.1.map (fun a => (a - 90) * (jsPI / 180))
      let c := angleRad.map mcos
      let s := angleRad.map msin
      some { type := "GRADIENT_LINEAR"
             gradientStops := stops
             gradientHandlePositions :=
               [⟨c.map (fun v => 1/2 - v * (1/2)), s.map (fun v => 1/2 - v * (1/2))⟩,
                ⟨c.map (fun v => 1/2 + v * (1/2)), s.map (fun v => 1/2 + v * (1/2))⟩,
                ⟨s.map (fun v => 1/2 - v * (1/2)), c.map (fun v => 1/2 + v * (1/2))⟩] }

/-- Model of `parseRadialGradient` from scrape.js.  The first part is skipped unless it
looks like a color (`/^(rgb|hsl|#)/i`). -/
def parseRadialGradient (content : List Char) : Option JSGradient :=
  let parts := splitGradientParts content
  if parts.length < 2 then none
  else
    let first := (trimChars (parts.headI)).map Char.toLower
    let looksColor := startsWithL "rgb".data first ∨ startsWithL "hsl".data first ∨
      startsWithL "#".data first
    let start := if ¬looksColor then 1 else 0
    let stops := collectStops (parts.drop start)
    if stops.length < 2 then none
    else
      some { type := "GRADIENT_RADIAL"
             gradientStops := stops
             gradientHandlePositions :=
               [⟨some (1/2), some (1/2)⟩, ⟨some 1, some (1/2)⟩,
                ⟨some (1/2), some 1⟩] }

/-- Model of `parseGradient` from scrape.js. -/
def parseGradient (mcos msin : ℚ → ℚ) (s : String) : Option JSGradient :=
  if s.data.isEmpty ∨ s = "none" then none
  else
    match findFuncCapture "linear-gradient".data s.data with
    | some content => parseLinearGradient mcos msin content
    | none =>
      match findFuncCapture "radial-gradient".data s.data with
      | some content => parseRadialGradient content
      | none => none

/-! ## scrape.js `parseBoxShadow`

```js
function parseBoxShadow(shadowStr) {
    if (!shadowStr || shadowStr === 'none') return [];
    const effects = [];
    const shadows = splitGradientParts(shadowStr);
    for (const shadow of shadows) {
        const trimmed = shadow.trim();
        const isInner = trimmed.startsWith('inset');
        const cleaned = trimmed.replace(/^inset\s*/, '');
        let color = null;
        let rest = cleaned;
        const rgbaMatch = cleaned.match(/rgba?\([^)]+\)/);
        if (rgbaMatch) {
            color = parseColor(rgbaMatch[0]);
            rest = cleaned.replace(rgbaMatch[0], '').trim();
        }
        const nums = rest.match(/ -?[\d.]+px /g);   // (spaces added here only to
                                                    // keep this comment well formed)
        if (!nums || nums.length < 2) continue;
        const offsetX = parseFloat(nums[0]);
        const offsetY = parseFloat(nums[1]);
        const blur = nums[2] ? parseFloat(nums[2]) : 0;
        const spread = nums[3] ? parseFloat(nums[3]) : 0;
        if (!color) color = { r: 0, g: 0, b: 0, a: 0.25 };
        effects.push({
            type: isInner ? 'INNER_SHADOW' : 'DROP_SHADOW',
            color: { r: color.r, g: color.g, b: color.b, a: color.a },
            offset: { x: offsetX, y: offsetY },
            radius: blur, spread: spread, visible: true
        });
    }
    return effects;
}
```
-/

/-- A shadow effect as produced by scrape.js. -/
structure JSEffect where
  type : String
  r : Option ℚ
  g : Option ℚ
  b : Option ℚ
  a : Option ℚ
  offsetX : Option ℚ
  offsetY : Option ℚ
  radius : Option ℚ
  spread : Option ℚ
  visible : Bool
deriving DecidableEq

/-- Leftmost match of `/rgba?\([^)]+\)/` in a string, returned as the text
before the match, the matched substring, and the text after it (`replace` of
the matched text removes exactly this span, since the leftmost occurrence of
the matched text coincides with the leftmost position at which the pattern
matches). -/
def findRgbaParen : List Char → Option (List Char × List Char × List Char)
  | [] => none
  | c :: rest =>
    let here := c :: rest
    let attempt : Option ℕ :=
      if startsWithL "rgba(".data here then some 5
      else if startsWithL "rgb(".data here then some 4
      else none
    match attempt with
    | some n =>
      let t := here.drop n
      let content := t.takeWhile (fun x => x ≠ ')')
      match t.dropWhile (fun x => x ≠ ')') with
      | ')' :: after =>
        if content.isEmpty then
          match findRgbaParen rest with
          | some (b, m, a) => some (c :: b, m, a)
          | none => none
        else some ([], here.take n ++ content ++ [')'], after)
      | _ =>
        match findRgbaParen rest with
        | some (b, m, a) => some (c :: b, m, a)
        | none => none
    | none =>
      match findRgbaParen rest with
      | some (b, m, a) => some (c :: b, m, a)
      | none => none

/-- Try to match `-?[\d.]+px` at the current position; on success return the
sign, the numeric token, and the rest of the input after `px`. -/
def pxTokenAt (cs : List Char) : Option (Bool × List Char × List Char) :=
  let (neg, body) : Bool × List Char :=
    match cs with
    | '-' :: t => (true, t)
    | _ => (false, cs)
  let tok := body.takeWhile isDigitDot
  if tok.isEmpty then none
  else
    match body.dropWhile isDigitDot with
    | 'p' :: 'x' :: rest => some (neg, tok, rest)
    | _ => none

/-- All matches of `-?[\d.]+px` (global), scanning left to right and resuming after
each match.  The fuel argument bounds the recursion; every step consumes at
least one character, so `cs.length` fuel is always enough. -/
def pxTokensAux : ℕ → List Char → List (Bool × List Char)
  | 0, _ => []
  | _ + 1, [] => []
  | fuel + 1, c :: cs =>
    match pxTokenAt (c :: cs) with
    | some (neg, tok, rest) => (neg, tok) :: pxTokensAux fuel rest
    | none => pxTokensAux fuel cs

/-- Model of `rest.match` with the global pattern `-?[\d.]+px` from `parseBoxShadow`. -/
def pxTokens (cs : List Char) : List (Bool × List Char) :=
  pxTokensAux cs.length cs

/-- Value of `parseFloat` applied to a matched `-?[\d.]+px` token (it reads the sign
and the numeric part and stops at `p`). -/
def pxVal (t : Bool × List Char) : Option ℚ :=
  (jsParseFloat t.2).map (fun q => if t.1 then -q else q)

/-- The `trimmed`/`cleaned` steps of one `parseBoxShadow` iteration:
trim, then strip a leading `inset` and following whitespace
(`trimmed.replace(/^inset\s* /, '')`, space added in this comment only). -/
def shadowCleaned (shadow : List Char) : List Char :=
  let trimmed := trimChars shadow
  if startsWithL "inset".data trimmed then (trimmed.drop 5).dropWhile isWS
  else trimmed

/-- The color extraction of one `parseBoxShadow` iteration: the parsed color
of the first `rgba?(...)` occurrence (if any) and the remaining string the
length tokens are scanned from. -/
def shadowColorRest (shadow : List Char) : Option RGBAjs × List Char :=
  let cleaned := shadowCleaned shadow
  match findRgbaParen cleaned with
  | some (before, matched, after) =>
    (parseColorL matched, trimChars (before ++ after))
  | none => (none, cleaned)

/-- One iteration of the `parseBoxShadow` loop; `none` models `continue`. -/
def parseShadowClause (shadow : List Char) : Option JSEffect :=
  let trimmed := trimChars shadow
  let isInner := startsWithL "inset".data trimmed
  let colorRest := shadowColorRest shadow
  let nums := pxTokens colorRest.2
  if nums.length < 2 then none
  else
    let offsetX := (nums.get? 0).bind pxVal
    let offsetY := (nums.get? 1).bind pxVal
    let blur := match nums.get? 2 with
      | some t => pxVal t
      | none => some 0
    let spread := match nums.get? 3 with
      | some t => pxVal t
      | none => some 0
    let color := colorRest.1.getD ⟨some 0, some 0, some 0, some (mkRat 1 4)⟩
    some { type := if isInner then "INNER_SHADOW" else "DROP_SHADOW"
           r := color.r, g := color.g, b := color.b, a := color.a
           offsetX := offsetX, offsetY := offsetY
           radius := blur, spread := spread, visible := true }

/-- Model of `parseBoxShadow` from scrape.js. -/
def parseBoxShadowL (cs : List Char) : List JSEffect :=
  if cs.isEmpty ∨ cs = "none".data then []
  else (splitGradientParts cs).filterMap parseShadowClause

/-- Model of `parseBoxShadow` on strings. -/
def parseBoxShadow (s : String) : List JSEffect :=
  parseBoxShadowL s.data

/-! # The Figma plugin (Materializer), from `src/unnamed/part_000`

The plugin consumes the IR JSON document.  JSON numbers are rationals, absent
fields are `none`.  A paint (`fills` entry) is a JS object; we model it as a
record of optional fields with a `type` tag string, which also makes
"unrecognized fill types pass through unchanged" a literal identity. -/

/-- A color object on the plugin side (solid colors carry `r g b`; stop and
effect colors also carry `a`; any field may be absent). -/
structure JColor where
  r : Option ℚ := none
  g : Option ℚ := none
  b : Option ℚ := none
  a : Option ℚ := none
deriving DecidableEq

/-- A gradient stop on the plugin side. -/
structure JStopP where
  color : Option JColor := none
  position : Option ℚ := none
deriving DecidableEq

/-- A 2-D point on the plugin side. -/
structure JPointP where
  x : Option ℚ := none
  y : Option ℚ := none
deriving DecidableEq

/-- A 2x3 affine matrix, as the nested-array literal used by the plugin
(entries may be `NaN`/`undefined`, hence `Option ℚ`). -/
abbrev Mat23 := List (List (Option ℚ))

/-- A paint object. -/
structure JFill where
  type : String
  color : Option JColor := none
  opacity : Option ℚ := none
  gradientStops : Option (List JStopP) := none
  gradientHandlePositions : Option (List JPointP) := none
  gradientTransform : Option Mat23 := none
  scaleMode : Option String := none
  imageHash : Option String := none
deriving DecidableEq

/-- Evaluation of `x || 0` on plugin-side JS numbers (no `NaN` can occur in parsed JSON;
`0` maps to `0`, so this is `getD 0`). -/
def orZero (x : Option ℚ) : ℚ := x.getD 0

/-- Model of `clamp(val)` from the plugin:
`function clamp(val, min = 0, max = 1) { return Math.min(Math.max(val, min), max); }` -/
def clamp (v : ℚ) : ℚ := jsMin (jsMax v 0) 1

/-- Model of `handlePositionsToTransform` from the plugin:

```js
function handlePositionsToTransform(handles) {
    if (!handles || handles.length < 3) {
        return [[1, 0, 0], [0, 1, 0]];
    }
    const start = handles[0];
    const end = handles[1];
    const width = handles[2];
    const dx = end.x - start.x;
    const dy = end.y - start.y;
    const wx = width.x - start.x;
    const wy = width.y - start.y;
    return [[dx, wx, start.x], [dy, wy, start.y]];
}
```

Subtraction of a missing coordinate gives `NaN` (`none`). -/
def osub (a b : Option ℚ) : Option ℚ :=
  match a, b with
  | some x, some y => some (qsub x y)
  | _, _ => none

def identityTransform : Mat23 :=
  [[some 1, some 0, some 0], [some 0, some 1, some 0]]

def handlePositionsToTransform (handles : Option (List JPointP)) : Mat23 :=
  match handles with
  | some (s :: e :: w :: _) =>
    [[osub e.x s.x, osub w.x s.x, s.x],
     [osub e.y s.y, osub w.y s.y, s.y]]
  | _ => identityTransform

/-- The stop-sanitizing map inside `sanitizeFills`. -/
def sanitizeStop (stop : JStopP) : JStopP :=
  let sc := stop.color.getD {}
  { color := some { r := some (clamp (orZero sc.r))
                    g := some (clamp (orZero sc.g))
                    b := some (clamp (orZero sc.b))
                    a := some (match sc.a with
                               | some a => clamp a
                               | none => 1) }
    position := some (clamp (orZero stop.position)) }

/-- The per-fill body of `sanitizeFills`:

```js
return fills.map(fill => {
    if (fill.type === 'SOLID') {
        var c = fill.color || {};
        return { type: 'SOLID',
                 color: { r: clamp(c.r || 0), g: clamp(c.g || 0), b: clamp(c.b || 0) },
                 opacity: fill.opacity !== undefined ? clamp(fill.opacity) : 1 };
    }
    if (fill.type === 'GRADIENT_LINEAR' || fill.type === 'GRADIENT_RADIAL') {
        return { type: fill.type,
                 gradientStops: (fill.gradientStops || []).map(...),
                 gradientTransform: fill.gradientHandlePositions
                     ? handlePositionsToTransform(fill.gradientHandlePositions)
                     : [[1, 0, 0], [0, 1, 0]] };
    }
    return fill;
}).filter(Boolean);
```
-/
def sanitizeOne (fill : JFill) : JFill :=
  if fill.type = "SOLID" then
    let c := fill.color.getD {}
    { type := "SOLID"
      color := some { r := some (clamp (orZero c.r))
                      g := some (clamp (orZero c.g))
                      b := some (clamp (orZero c.b)) }
      opacity := some (match fill.opacity with
                       | some o => clamp o
                       | none => 1) }
  else if fill.type = "GRADIENT_LINEAR" ∨ fill.type = "GRADIENT_RADIAL" then
    { type := fill.type
      gradientStops := some ((fill.gradientStops.getD []).map sanitizeStop)
      gradientTransform := some (match fill.gradientHandlePositions with
        | some hs => handlePositionsToTransform (some hs)
        | none => identityTransform) }
  else fill

/-- The argument of `sanitizeFills`: `undefined`/`null`, a non-array value, or
an array of fills (the first two are both rejected by
`if (!fills || !Array.isArray(fills)) return [];`). -/
inductive FillsArg where
  | undef
  | notArray
  | arr (l : List JFill)

/-- Model of `sanitizeFills` from the plugin.  The trailing `.filter(Boolean)` never
removes anything since every mapped element is an object (hence truthy). -/
def sanitizeFills : FillsArg → List JFill
  | .undef => []
  | .notArray => []
  | .arr l => l.map sanitizeOne

/-- A shadow effect as read from the IR by the plugin. -/
structure JEffectIn where
  type : Option String := none
  color : Option JColor := none
  offset : Option JPointP := none
  radius : Option ℚ := none
  spread : Option ℚ := none
  visible : Option Bool := none
deriving DecidableEq

/-- A shadow effect as written to a Figma node by `applyEffects`. -/
structure SEffect where
  type : Option String
  r : ℚ
  g : ℚ
  b : ℚ
  a : ℚ
  ox : ℚ
  oy : ℚ
  radius : ℚ
  spread : ℚ
  visible : Bool
deriving DecidableEq

/-- The per-effect body of `applyEffects`:

```js
figmaNode.effects = node.effects.map(function (effect) {
    var ec = effect.color || {};
    var eo = effect.offset || {};
    return { type: effect.type,
             color: { r: clamp(ec.r || 0), g: clamp(ec.g || 0), b: clamp(ec.b || 0),
                      a: ec.a !== undefined ? clamp(ec.a) : 1 },
             offset: { x: eo.x || 0, y: eo.y || 0 },
             radius: Math.max(effect.radius || 0, 0),
             spread: effect.spread || 0,
             visible: true };
});
```
-/
def sanitizeEffect (effect : JEffectIn) : SEffect :=
  let ec := effect.color.getD {}
  let eo := effect.offset.getD {}
  { type := effect.type
    r := clamp (orZero ec.r)
    g := clamp (orZero ec.g)
    b := clamp (orZero ec.b)
    a := match ec.a with
         | some a => clamp a
         | none => 1
    ox := orZero eo.x
    oy := orZero eo.y
    radius := jsMax (orZero effect.radius) 0
    spread := orZero effect.spread
    visible := true }

/-! ## IR nodes and the materializer tree walk -/

/-- A `lineHeight` object (`{unit, value}`). -/
structure LineHeightIR where
  unit : Option String := none
  value : Option ℚ := none
deriving DecidableEq

/-- The fields of an IR node as read by the plugin (all optional: the IR is
plain JSON).  `children` is kept separately in `IRNode`. -/
structure IRFields where
  type : Option String := none
  name : Option String := none
  x : Option ℚ := none
  y : Option ℚ := none
  width : Option ℚ := none
  height : Option ℚ := none
  opacity : Option ℚ := none
  fills : Option (List JFill) := none
  strokes : Option (List JFill) := none
  backgroundFills : Option (List JFill) := none
  strokeWeight : Option ℚ := none
  strokeAlign : Option String := none
  topLeftRadius : Option ℚ := none
  topRightRadius : Option ℚ := none
  bottomRightRadius : Option ℚ := none
  bottomLeftRadius : Option ℚ := none
  effects : Option (List JEffectIn) := none
  characters : Option String := none
  fontSize : Option ℚ := none
  fontFamily : Option String := none
  figmaFontStyle : Option String := none
  lineHeight : Option LineHeightIR := none
  letterSpacing : Option ℚ := none
  textAlignHorizontal : Option String := none
  textDecoration : Option String := none
  clipsContent : Option Bool := none
  svgContent : Option String := none
  imageUrl : Option String := none
  imageBase64 : Option String := none

/-- An IR node: fields plus ordered children.  A missing `children` field is
modeled as `[]`: the plugin only tests `node.children && node.children.length > 0`,
which treats `undefined` and `[]` identically. -/
inductive IRNode where
  | mk (fields : IRFields) (children : List IRNode)

/-- The properties of a constructed Figma scene node.  Fields the plugin never
wrote are `none` (their Figma defaults are irrelevant to the claims). -/
structure SProps where
  kind : String
  name : Option String := none
  width : ℚ := 0
  height : ℚ := 0
  x : ℚ := 0
  y : ℚ := 0
  opacity : Option ℚ := none
  fills : Option (List JFill) := none
  strokes : Option (List JFill) := none
  strokeWeight : Option ℚ := none
  strokeAlign : Option String := none
  topLeftRadius : Option ℚ := none
  topRightRadius : Option ℚ := none
  bottomRightRadius : Option ℚ := none
  bottomLeftRadius : Option ℚ := none
  effects : Option (List SEffect) := none
  clipsContent : Option Bool := none
  characters : Option String := none
  fontName : Option (String × String) := none
  fontSize : Option ℚ := none
  lineHeight : Option LineHeightIR := none
  letterSpacing : Option (String × ℚ) := none
  textAlignHorizontal : Option String := none
  textDecoration : Option String := none
  textAutoResize : Option String := none

/-- A constructed Figma scene node (a tree). -/
inductive SNode where
  | mk (props : SProps) (children : List SNode)

/-- The environment of external capabilities: which fonts load, which SVG
markup parses, which images decode or resolve, and the viewport center. -/
structure MatEnv where
  fontOk : String → String → Bool
  svgOk : String → Bool
  imageDecodeOk : String → Bool
  imageUrlOk : String → Bool
  viewportCenterX : ℚ := 0
  viewportCenterY : ℚ := 0

/-- Evaluation of `x || d` on JS strings (`""` is falsy). -/
def orDStr (x : Option String) (d : String) : String :=
  match x with
  | some s => if s.isEmpty then d else s
  | none => d

/-- Truthiness of an optional JS number. -/
def truthyQ (x : Option ℚ) : Bool :=
  match x with
  | some q => q ≠ 0
  | none => false

/-- Truthiness of an optional JS string. -/
def truthyS (x : Option String) : Bool :=
  match x with
  | some s => ¬s.isEmpty
  | none => false

/-- Truthiness of an optional JS array (`[]` is truthy but has length 0, so
`l && l.length > 0` is this). -/
def nonEmptyList {α : Type} (x : Option (List α)) : Bool :=
  match x with
  | some l => ¬l.isEmpty
  | none => false

/-- Model of `applyStrokes` from the plugin. -/
def applyStrokes (node : IRFields) (p : SProps) : SProps :=
  if nonEmptyList node.strokes then
    { p with strokes := some (sanitizeFills (.arr (node.strokes.getD [])))
             strokeWeight := if truthyQ node.strokeWeight then node.strokeWeight
                             else p.strokeWeight
             strokeAlign := some (orDStr node.strokeAlign "INSIDE") }
  else p

/-- Model of `applyCornerRadius` from the plugin: radii are written only when at least
one radius field is defined on the IR node. -/
def applyCornerRadius (node : IRFields) (p : SProps) : SProps :=
  if node.topLeftRadius ≠ none ∨ node.topRightRadius ≠ none ∨
     node.bottomRightRadius ≠ none ∨ node.bottomLeftRadius ≠ none then
    { p with topLeftRadius := some (orZero node.topLeftRadius)
             topRightRadius := some (orZero node.topRightRadius)
             bottomRightRadius := some (orZero node.bottomRightRadius)
             bottomLeftRadius := some (orZero node.bottomLeftRadius) }
  else p

/-- Model of `applyEffects` from the plugin. -/
def applyEffects (node : IRFields) (p : SProps) : SProps :=
  if nonEmptyList node.effects then
    { p with effects := some ((node.effects.getD []).map sanitizeEffect) }
  else p

/-- Model of `createFrameNode` from the plugin. -/
def createFrameNode (node : IRFields) : SProps :=
  let w := jsMax (orDQ node.width 1) 1
  let h := jsMax (orDQ node.height 1) 1
  let base : SProps :=
    { kind := "FRAME"
      width := w
      height := h
      clipsContent := some (node.clipsContent.getD false)
      fills := if nonEmptyList node.fills then
                 some (sanitizeFills (.arr (node.fills.getD [])))
               else some [] }
  applyEffects node (applyCornerRadius node (applyStrokes node base))

/-- The system-font table of `sanitizeFontFamily`. -/
def systemFontMap : List (String × String) :=
  [("system-ui", "Inter"), ("-apple-system", "Inter"),
   ("BlinkMacSystemFont", "Inter"), ("Segoe UI", "Inter"),
   ("ui-sans-serif", "Inter"), ("ui-serif", "Georgia"),
   ("ui-monospace", "Roboto Mono"), ("sans-serif", "Inter"),
   ("serif", "Georgia"), ("monospace", "Roboto Mono")]

/-- Model of `sanitizeFontFamily` from the plugin. -/
def sanitizeFontFamily (family : Option String) : String :=
  match family with
  | none => "Inter"
  | some f =>
    if f.isEmpty then "Inter"
    else
      let cleaned := String.mk (trimChars
        (((f.data.filter (fun c => ¬(c = '\'' ∨ c = '"'))).takeWhile (fun c => c ≠ ','))))
      match systemFontMap.lookup cleaned with
      | some v => v
      | none => cleaned

/-- The font fallback cascade of `createTextNode`: try (family, style),
(family, Regular), (Inter, style), (Inter, Regular); if all fail, the final
unconditional `loadFontAsync(Inter, Regular)` is used. -/
def pickFont (fontOk : String → String → Bool) (family style : String) :
    String × String :=
  if fontOk family style then (family, style)
  else if fontOk family "Regular" then (family, "Regular")
  else if fontOk "Inter" style then ("Inter", style)
  else if fontOk "Inter" "Regular" then ("Inter", "Regular")
  else ("Inter", "Regular")

/-- Model of `createTextNode` from the plugin (async font loading resolved through
`env.fontOk`). -/
def createTextNode (env : MatEnv) (node : IRFields) : SNode :=
  let hasBackground := nonEmptyList node.backgroundFills
  let hasBorder := nonEmptyList node.strokes
  let hasRadius := truthyQ node.topLeftRadius || truthyQ node.topRightRadius ||
    truthyQ node.bottomRightRadius || truthyQ node.bottomLeftRadius
  let hasEffects := nonEmptyList node.effects
  let needsWrapper := hasBackground || hasBorder || hasRadius || hasEffects
  let fontFamily := sanitizeFontFamily node.fontFamily
  let fontStyle := orDStr node.figmaFontStyle "Regular"
  let w := jsMax (orDQ node.width 1) 1
  let h := jsMax (orDQ node.height 1) 1
  let textProps : SProps :=
    { kind := "TEXT"
      fontName := some (pickFont env.fontOk fontFamily fontStyle)
      characters := some (node.characters.getD "")
      fontSize := if truthyQ node.fontSize then node.fontSize else none
      lineHeight :=
        match node.lineHeight with
        | some lh =>
          if lh.unit = some "AUTO" then some { unit := some "AUTO" }
          else if truthyQ lh.value then
            some { unit := some "PIXELS", value := lh.value }
          else none
        | none => none
      letterSpacing :=
        if truthyQ node.letterSpacing then
          some ("PIXELS", node.letterSpacing.getD 0)
        else none
      textAlignHorizontal :=
        if truthyS node.textAlignHorizontal then node.textAlignHorizontal
        else none
      textDecoration :=
        match node.textDecoration with
        | some d => if ¬d.isEmpty ∧ d ≠ "NONE" then some d else none
        | none => none
      fills := if nonEmptyList node.fills then
                 some (sanitizeFills (.arr (node.fills.getD [])))
               else none
      width := w
      height := h
      textAutoResize := some "NONE" }
  if needsWrapper then
    let wrapBase : SProps :=
      { kind := "FRAME"
        name := some (orDStr node.name "text-container")
        width := w
        height := h
        clipsContent := some false
        fills := if hasBackground then
                   some (sanitizeFills (.arr (node.backgroundFills.getD [])))
                 else some [] }
    let wrapProps := applyEffects node (applyCornerRadius node (applyStrokes node wrapBase))
    SNode.mk wrapProps [SNode.mk { textProps with x := 0, y := 0 } []]
  else
    SNode.mk textProps []

/-- Model of `createSvgNode` from the plugin (markup parsing resolved through
`env.svgOk`; the natural size of a parsed vector is not modeled, only the
explicit `resize` when both dimensions are truthy). -/
def createSvgNode (env : MatEnv) (node : IRFields) : SNode :=
  match node.svgContent with
  | none =>
    SNode.mk { kind := "RECTANGLE"
               width := jsMax (orDQ node.width 24) 1
               height := jsMax (orDQ node.height 24) 1
               fills := some [{ type := "SOLID"
                                color := some { r := some (mkRat 4 5)
                                                g := some (mkRat 4 5)
                                                b := some (mkRat 4 5) } }] } []
  | some svg =>
    if env.svgOk svg then
      if truthyQ node.width ∧ truthyQ node.height then
        SNode.mk { kind := "SVG"
                   width := jsMax (node.width.getD 0) 1
                   height := jsMax (node.height.getD 0) 1 } []
      else SNode.mk { kind := "SVG" } []
    else
      SNode.mk { kind := "RECTANGLE"
                 name := some "SVG (parse error)"
                 width := jsMax (orDQ node.width 24) 1
                 height := jsMax (orDQ node.height 24) 1
                 fills := some [{ type := "SOLID"
                                  color := some { r := some (mkRat 9 10)
                                                  g := some (mkRat 7 10)
                                                  b := some (mkRat 7 10) } }] } []

/-- Model of `createImageNode` from the plugin (`imageBase64` decode and `imageUrl`
resolution through the environment; the bound image hash is surrogated by the
source string). -/
def createImageNode (env : MatEnv) (node : IRFields) : SNode :=
  let w := jsMax (orDQ node.width 100) 1
  let h := jsMax (orDQ node.height 100) 1
  let props : SProps :=
    match node.imageBase64 with
    | some b64 =>
      if env.imageDecodeOk b64 then
        { kind := "RECTANGLE", width := w, height := h
          fills := some [{ type := "IMAGE", scaleMode := some "FILL"
                           imageHash := some b64 }] }
      else
        { kind := "RECTANGLE", width := w, height := h
          name := some (orDStr node.name "Image (load error)")
          fills := some [{ type := "SOLID"
                           color := some { r := some (mkRat 17 20)
                                           g := some (mkRat 17 20)
                                           b := some (mkRat 9 10) } }] }
    | none =>
      match node.imageUrl with
      | some url =>
        if env.imageUrlOk url then
          { kind := "RECTANGLE", width := w, height := h
            fills := some [{ type := "IMAGE", scaleMode := some "FILL"
                             imageHash := some url }] }
        else
          { kind := "RECTANGLE", width := w, height := h
            name := some (orDStr node.name "Image (URL error)")
            fills := some [{ type := "SOLID"
                             color := some { r := some (mkRat 17 20)
                                             g := some (mkRat 17 20)
                                             b := some (mkRat 9 10) } }] }
      | none =>
        { kind := "RECTANGLE", width := w, height := h
          fills := some [{ type := "SOLID"
                           color := some { r := some (mkRat 9 10)
                                           g := some (mkRat 9 10)
                                           b := some (mkRat 9 10) } }] }
  SNode.mk props []

/-- Whether the constructed node supports `appendChild` (frames and parsed
vector roots do; text nodes and rectangles do not). -/
def canAppend : SNode → Bool
  | .mk p _ => p.kind = "FRAME" || p.kind = "SVG"

def appendChildren : SNode → List SNode → SNode
  | .mk p cs, extra => .mk p (cs ++ extra)

/-- The uniform post-construction steps of `processNode`: explicit position,
sub-1 opacity, and the IR name. -/
def setPost (f : IRFields) : SNode → SNode
  | .mk p cs =>
    let p1 := match f.x with
              | some v => { p with x := v }
              | none => p
    let p2 := match f.y with
              | some v => { p1 with y := v }
              | none => p1
    let p3 := match f.opacity with
              | some o => if o < 1 then { p2 with opacity := some o } else p2
              | none => p2
    let p4 := if truthyS f.name then { p3 with name := f.name } else p3
    .mk p4 cs

mutual

/-- Model of `processNode` from the plugin: dispatch on the node type, post-process,
attach, then recurse into children when the constructed node can hold them. -/
def processNode (env : MatEnv) : IRNode → SNode
  | .mk f children =>
    let built : SNode :=
      match f.type with
      | some "TEXT" => createTextNode env f
      | some "SVG" => createSvgNode env f
      | some "IMAGE" => createImageNode env f
      | _ => SNode.mk (createFrameNode f) []
    let placed := setPost f built
    if ¬children.isEmpty ∧ canAppend placed then
      appendChildren placed (processChildren env children)
    else placed

/-- The child loop of `processNode` (sequential, in IR order). -/
def processChildren (env : MatEnv) : List IRNode → List SNode
  | [] => []
  | c :: cs => processNode env c :: processChildren env cs

end

/-! ## The `figma.ui.onmessage` handler

```js
figma.ui.onmessage = async (msg) => {
    if (msg.type === 'import-design') {
        const data = msg.data;
        if (!data || !data.rootNode) {
            figma.notify('❌ Invalid design.json — missing rootNode');
            return;
        }
        ...
        const rootFrame = figma.createFrame();
        rootFrame.name = data.pageTitle || 'Imported Web Page';
        rootFrame.resize(
            data.viewportWidth || 1440,
            data.fullHeight || data.viewportHeight || 900
        );
        await processNode(data.rootNode, rootFrame);
        rootFrame.x = figma.viewport.center.x - rootFrame.width / 2;
        rootFrame.y = figma.viewport.center.y - rootFrame.height / 2;
        ...
    }
};
```
-/

/-- The IR document. -/
structure IRDoc where
  pageTitle : Option String := none
  viewportWidth : Option ℚ := none
  viewportHeight : Option ℚ := none
  fullHeight : Option ℚ := none
  rootNode : Option IRNode := none

/-- A UI message. -/
structure UIMsg where
  type : String
  data : Option IRDoc := none

/-- The outcome of the message handler.  `aborted` carries the single
`figma.notify` message of the validation-failure path and no scene node:
validation happens before any node is created. -/
inductive ImportResult where
  | ignored
  | aborted (notice : String)
  | ran (root : SNode)

/-- The `rootFrame.resize` argument pair. -/
def rootFrameSize (d : IRDoc) : ℚ × ℚ :=
  (orDQ d.viewportWidth 1440, orDQ d.fullHeight (orDQ d.viewportHeight 900))

def setFramePos : SNode → ℚ → ℚ → SNode
  | .mk p cs, nx, ny => .mk { p with x := nx, y := ny } cs

/-- The `figma.ui.onmessage` handler (progress reporting and the layer
counter are observability side channels and are not modeled). -/
def handleImport (env : MatEnv) (msg : UIMsg) : ImportResult :=
  if msg.type = "import-design" then
    match msg.data with
    | none => .aborted "❌ Invalid design.json — missing rootNode"
    | some d =>
      match d.rootNode with
      | none => .aborted "❌ Invalid design.json — missing rootNode"
      | some root =>
        let size := rootFrameSize d
        let rootProps : SProps :=
          { kind := "FRAME"
            name := some (orDStr d.pageTitle "Imported Web Page")
            width := size.1
            height := size.2 }
        let frame := SNode.mk rootProps [processNode env root]
        .ran (setFramePos frame
          (qsub env.viewportCenterX (qdivN size.1 2))
          (qsub env.viewportCenterY (qdivN size.2 2)))
  else .ignored

/-- The scene root constructed by a handler run (`none` when the run aborted
or the message was ignored: no target-tool mutation happened). -/
def createdRoot : ImportResult → Option SNode
  | .ran r => some r
  | _ => none

/-- The notification surfaced by a handler run that aborted. -/
def abortNotice : ImportResult → Option String
  | .aborted n => some n
  | _ => none

/-- The size of the constructed root container, when one was constructed. -/
def resultRootSize : ImportResult → Option (ℚ × ℚ)
  | .ran (.mk p _) => some (p.width, p.height)
  | _ => none

/-- The properties of a constructed scene node. -/
def SNode.props : SNode → SProps
  | .mk p _ => p

/-- The children of a constructed scene node. -/
def SNode.childList : SNode → List SNode
  | .mk _ cs => cs

/-- The fields of an IR node. -/
def IRNode.fields : IRNode → IRFields
  | .mk f _ => f

/-- An environment in which every font, vector and image resolves, with the
viewport centered at the origin. -/
def allOkEnv : MatEnv :=
  { fontOk := fun _ _ => true
    svgOk := fun _ => true
    imageDecodeOk := fun _ => true
    imageUrlOk := fun _ => true }

/-- One step of the depth counter of `splitGradientParts`. -/
def stepDepth (d : ℤ) (ch : Char) : ℤ :=
  if ch = '(' then d + 1 else if ch = ')' then d - 1 else d

/-- The depth after scanning a string, starting from `d`. -/
def depthAfter (d : ℤ) (cs : List Char) : ℤ :=
  cs.foldl stepDepth d

/-- No comma of `cs` is seen at depth 0 when scanning from depth `d`
(the depth is updated before the comma test, as in the loop). -/
def noCommaAtTop : List Char → ℤ → Bool
  | [], _ => true
  | ch :: rest, d =>
    if ch = ',' ∧ stepDepth d ch = 0 then false
    else noCommaAtTop rest (stepDepth d ch)

/-- The canonical serialization `rgba(T1, T2, T3, T4)` over token lists. -/
def rgbaString (t1 t2 t3 t4 : List Char) : String :=
  String.mk ('r' :: 'g' :: 'b' :: 'a' :: '(' ::
    (t1 ++ ',' :: ' ' :: (t2 ++ ',' :: ' ' :: (t3 ++ ',' :: ' ' :: (t4 ++ [')'])))))

/-- The canonical serialization `rgb(T1, T2, T3)` over token lists. -/
def rgbString (t1 t2 t3 : List Char) : String :=
  String.mk ('r' :: 'g' :: 'b' :: '(' ::
    (t1 ++ ',' :: ' ' :: (t2 ++ ',' :: ' ' :: (t3 ++ [')']))))

/-- The gradient paint of the C5 counterexample: stops and handles all lie in
`[0, 1]` (the 90° handles produced by the extractor). -/
def c5GradFill : JFill :=
  { type := "GRADIENT_LINEAR"
    gradientStops := some [{ color := some { r := some 1, g := some 0, b := some 0, a := some 1 }
                             position := some 0 }]
    gradientHandlePositions := some [⟨some 0, some (mkRat 1 2)⟩, ⟨some 1, some (mkRat 1 2)⟩,
                                     ⟨some (mkRat 1 2), some 1⟩] }

/-- The IR text node of the C6 witness: black text on a white background. -/
def c6TextIR : IRFields :=
  { type := some "TEXT"
    characters := some "Hi"
    width := some 40
    height := some 20
    fills := some [{ type := "SOLID", color := some { r := some 0, g := some 0, b := some 0 }, opacity := some 1 }]
    backgroundFills := some [{ type := "SOLID", color := some { r := some 1, g := some 1, b := some 1 }, opacity := some 1 }] }

/-- The short-page document of the C7 counterexample: `fullHeight = 500` is
smaller than `viewportHeight = 900`. -/
def c7ShortDoc : IRDoc :=
  { viewportWidth := some 1440
    viewportHeight := some 900
    fullHeight := some 500
    rootNode := some (.mk { type := some "FRAME" } []) }

/-! # Theorems

First the equivalences between the kernel-reducible arithmetic helpers and
the standard field operations, then span lemmas for the scanners, then the
claims. -/

theorem qdivN_eq (q : ℚ) (n : ℕ) : qdivN q n = q / n := by
  rcases Nat.eq_zero_or_pos n with h | h
  · subst h
    simp [qdivN, Rat.mkRat_eq_divInt]
  · have hd : ((q.den : ℚ)) ≠ 0 := Nat.cast_ne_zero.mpr q.den_ne_zero
    rw [qdivN, Rat.mkRat_eq_divInt, Rat.divInt_eq_div]
    push_cast
    conv_rhs => rw [← Rat.num_div_den q]
    rw [div_div]

theorem qsub_eq (a b : ℚ) : qsub a b = a - b := by
  have ha : ((a.den : ℚ)) ≠ 0 := Nat.cast_ne_zero.mpr a.den_ne_zero
  have hb : ((b.den : ℚ)) ≠ 0 := Nat.cast_ne_zero.mpr b.den_ne_zero
  rw [qsub, Rat.mkRat_eq_divInt, Rat.divInt_eq_div]
  push_cast
  conv_rhs => rw [← Rat.num_div_den a, ← Rat.num_div_den b]
  rw [div_sub_div _ _ ha hb]
  ring_nf

theorem qmul_eq (a b : ℚ) : qmul a b = a * b := by
  have ha : ((a.den : ℚ)) ≠ 0 := Nat.cast_ne_zero.mpr a.den_ne_zero
  have hb : ((b.den : ℚ)) ≠ 0 := Nat.cast_ne_zero.mpr b.den_ne_zero
  rw [qmul, Rat.mkRat_eq_divInt, Rat.divInt_eq_div]
  push_cast
  conv_rhs => rw [← Rat.num_div_den a, ← Rat.num_div_den b]
  rw [div_mul_div_comm]

theorem jsMax_eq (a b : ℚ) : jsMax a b = max a b := by
  rw [jsMax, max_def]

theorem jsMin_eq (a b : ℚ) : jsMin a b = min a b := by
  rw [jsMin, min_def]

theorem not_isWS_of_isDigitDot {c : Char} (h : isDigitDot c = true) :
    isWS c = false := by
  cases hws : isWS c
  · rfl
  · exfalso
    simp only [isWS, Bool.or_eq_true, decide_eq_true_eq] at hws
    rcases hws with ((rfl | rfl) | rfl) | rfl <;> simp [isDigitDot, Char.isDigit] at h

theorem isDigitDot_of_isDigit {c : Char} (h : c.isDigit = true) :
    isDigitDot c = true := by
  simp [isDigitDot, h]

theorem takeWhile_all {p : Char → Bool} {l : List Char}
    (h : ∀ x ∈ l, p x = true) : l.takeWhile p = l := by
  induction l with
  | nil => rfl
  | cons a t ih =>
    rw [List.takeWhile_cons_of_pos (h a (List.mem_cons_self a t))]
    rw [ih (fun x hx => h x (List.mem_cons_of_mem a hx))]

theorem dropWhile_all {p : Char → Bool} {l : List Char}
    (h : ∀ x ∈ l, p x = true) : l.dropWhile p = [] := by
  induction l with
  | nil => rfl
  | cons a t ih =>
    rw [List.dropWhile_cons_of_pos (h a (List.mem_cons_self a t))]
    exact ih (fun x hx => h x (List.mem_cons_of_mem a hx))

theorem takeWhile_append_term {p : Char → Bool} {l : List Char} {c : Char}
    {r : List Char} (h : ∀ x ∈ l, p x = true) (hc : p c = false) :
    (l ++ c :: r).takeWhile p = l := by
  induction l with
  | nil => rw [List.nil_append, List.takeWhile_cons_of_neg (by simp [hc])]
  | cons a t ih =>
    rw [List.cons_append,
      List.takeWhile_cons_of_pos (h a (List.mem_cons_self a t))]
    rw [ih (fun x hx => h x (List.mem_cons_of_mem a hx))]

theorem dropWhile_append_term {p : Char → Bool} {l : List Char} {c : Char}
    {r : List Char} (h : ∀ x ∈ l, p x = true) (hc : p c = false) :
    (l ++ c :: r).dropWhile p = c :: r := by
  induction l with
  | nil => rw [List.nil_append, List.dropWhile_cons_of_neg (by simp [hc])]
  | cons a t ih =>
    rw [List.cons_append,
      List.dropWhile_cons_of_pos (h a (List.mem_cons_self a t))]
    exact ih (fun x hx => h x (List.mem_cons_of_mem a hx))

/-- Value of `jsParseFloat` on a nonempty all-digit token: its decimal value. -/
theorem jsParseFloat_digits {l : List Char} (hne : l ≠ [])
    (h : ∀ x ∈ l, x.isDigit = true) :
    jsParseFloat l = some ((digitsN l : ℚ)) := by
  unfold jsParseFloat
  rw [takeWhile_all h, dropWhile_all h]
  simp [List.isEmpty_iff, hne]

theorem spanToken {t : List Char} (c : Char) (r : List Char) (hne : t ≠ [])
    (hall : ∀ x ∈ t, isDigitDot x = true) (hc : isDigitDot c = false) :
    ((t ++ c :: r).dropWhile isWS = t ++ c :: r) ∧
    ((t ++ c :: r).takeWhile isDigitDot = t) ∧
    ((t ++ c :: r).dropWhile isDigitDot = c :: r) := by
  refine ⟨?_, takeWhile_append_term hall hc, dropWhile_append_term hall hc⟩
  obtain ⟨a, t', rfl⟩ := List.exists_cons_of_ne_nil hne
  rw [List.cons_append, List.dropWhile_cons_of_neg
    (by simp [not_isWS_of_isDigitDot (hall a (List.mem_cons_self a t'))])]

theorem matchArgs_four (t1 t2 t3 t4 : List Char)
    (h1 : t1 ≠ []) (ha1 : ∀ x ∈ t1, isDigitDot x = true)
    (h2 : t2 ≠ []) (ha2 : ∀ x ∈ t2, isDigitDot x = true)
    (h3 : t3 ≠ []) (ha3 : ∀ x ∈ t3, isDigitDot x = true)
    (h4 : t4 ≠ []) (ha4 : ∀ x ∈ t4, isDigitDot x = true) :
    matchArgs (t1 ++ ',' :: ' ' :: (t2 ++ ',' :: ' ' :: (t3 ++ ',' :: ' ' ::
      (t4 ++ [')'])))) = some (t1, t2, t3, some t4) := by
  have hcm : isDigitDot ',' = false := by decide
  have hpr : isDigitDot ')' = false := by decide
  have s1 := spanToken ',' (' ' :: (t2 ++ ',' :: ' ' :: (t3 ++ ',' :: ' ' :: (t4 ++ [')'])))) h1 ha1 hcm
  have s2 := spanToken ',' (' ' :: (t3 ++ ',' :: ' ' :: (t4 ++ [')']))) h2 ha2 hcm
  have s3 := spanToken ',' (' ' :: (t4 ++ [')'])) h3 ha3 hcm
  have s4 := spanToken ')' [] h4 ha4 hpr
  have e1 : t1.isEmpty = false := by simp [List.isEmpty_iff, h1]
  have e2 : t2.isEmpty = false := by simp [List.isEmpty_iff, h2]
  have e3 : t3.isEmpty = false := by simp [List.isEmpty_iff, h3]
  have e4 : t4.isEmpty = false := by simp [List.isEmpty_iff, h4]
  have hsp : isWS ' ' = true := by decide
  simp only [matchArgs, s1.1, s1.2.1, s1.2.2, e1, Bool.false_eq_true, if_false,
    List.dropWhile_cons_of_pos hsp, s2.1, s2.2.1, s2.2.2, e2,
    s3.1, s3.2.1, s3.2.2, e3, s4.1, s4.2.1, s4.2.2, e4]
  rfl

theorem matchArgs_three (t1 t2 t3 : List Char)
    (h1 : t1 ≠ []) (ha1 : ∀ x ∈ t1, isDigitDot x = true)
    (h2 : t2 ≠ []) (ha2 : ∀ x ∈ t2, isDigitDot x = true)
    (h3 : t3 ≠ []) (ha3 : ∀ x ∈ t3, isDigitDot x = true) :
    matchArgs (t1 ++ ',' :: ' ' :: (t2 ++ ',' :: ' ' :: (t3 ++ [')']))) =
      some (t1, t2, t3, none) := by
  have hcm : isDigitDot ',' = false := by decide
  have hpr : isDigitDot ')' = false := by decide
  have hsp : isWS ' ' = true := by decide
  have s1 := spanToken ',' (' ' :: (t2 ++ ',' :: ' ' :: (t3 ++ [')']))) h1 ha1 hcm
  have s2 := spanToken ',' (' ' :: (t3 ++ [')'])) h2 ha2 hcm
  have s3 := spanToken ')' [] h3 ha3 hpr
  have e1 : t1.isEmpty = false := by simp [List.isEmpty_iff, h1]
  have e2 : t2.isEmpty = false := by simp [List.isEmpty_iff, h2]
  have e3 : t3.isEmpty = false := by simp [List.isEmpty_iff, h3]
  simp only [matchArgs, s1.1, s1.2.1, s1.2.2, e1, Bool.false_eq_true, if_false,
    List.dropWhile_cons_of_pos hsp, s2.1, s2.2.1, s2.2.2, e2,
    s3.1, s3.2.1, s3.2.2, e3]
  rfl


theorem parseColor_rgba_general (t1 t2 t3 t4 : List Char)
    (h1 : t1 ≠ []) (ha1 : ∀ x ∈ t1, x.isDigit = true)
    (h2 : t2 ≠ []) (ha2 : ∀ x ∈ t2, x.isDigit = true)
    (h3 : t3 ≠ []) (ha3 : ∀ x ∈ t3, x.isDigit = true)
    (h4 : t4 ≠ []) (ha4 : ∀ x ∈ t4, isDigitDot x = true)
    (av : ℚ) (hav : jsParseFloat t4 = some av)
    (hblk : rgbaString t1 t2 t3 t4 ≠ "rgba(0, 0, 0, 0)") :
    parseColor (rgbaString t1 t2 t3 t4) =
      some { r := some ((digitsN t1 : ℚ) / 255), g := some ((digitsN t2 : ℚ) / 255),
             b := some ((digitsN t3 : ℚ) / 255), a := some av } := by
  have ha1' : ∀ x ∈ t1, isDigitDot x = true :=
    fun x hx => isDigitDot_of_isDigit (ha1 x hx)
  have ha2' : ∀ x ∈ t2, isDigitDot x = true :=
    fun x hx => isDigitDot_of_isDigit (ha2 x hx)
  have ha3' : ∀ x ∈ t3, isDigitDot x = true :=
    fun x hx => isDigitDot_of_isDigit (ha3 x hx)
  unfold parseColor rgbaString
  show parseColorL ('r' :: 'g' :: 'b' :: 'a' :: '(' ::
    (t1 ++ ',' :: ' ' :: (t2 ++ ',' :: ' ' :: (t3 ++ ',' :: ' ' :: (t4 ++ [')']))))) = _
  unfold parseColorL
  rw [if_neg]
  · have hfind : findColorMatch ('r' :: 'g' :: 'b' :: 'a' :: '(' ::
        (t1 ++ ',' :: ' ' :: (t2 ++ ',' :: ' ' :: (t3 ++ ',' :: ' ' :: (t4 ++ [')']))))) =
        some (t1, t2, t3, some t4) := by
      simp only [findColorMatch, tryColorHere]
      rw [matchArgs_four t1 t2 t3 t4 h1 ha1' h2 ha2' h3 ha3' h4 ha4]
    rw [hfind]
    simp only [jsParseFloat_digits h1 ha1, jsParseFloat_digits h2 ha2,
      jsParseFloat_digits h3 ha3, hav, Option.map_some, qdivN_eq]
    norm_num
  · rintro (h | h | h)
    · simp [List.isEmpty] at h
    · have ht : "transparent".data = ['t', 'r', 'a', 'n', 's', 'p', 'a', 'r',
        'e', 'n', 't'] := rfl
      rw [ht] at h
      simp at h
    · exact hblk (congrArg String.mk h)

theorem parseColor_rgb_general (t1 t2 t3 : List Char)
    (h1 : t1 ≠ []) (ha1 : ∀ x ∈ t1, x.isDigit = true)
    (h2 : t2 ≠ []) (ha2 : ∀ x ∈ t2, x.isDigit = true)
    (h3 : t3 ≠ []) (ha3 : ∀ x ∈ t3, x.isDigit = true) :
    parseColor (rgbString t1 t2 t3) =
      some { r := some ((digitsN t1 : ℚ) / 255), g := some ((digitsN t2 : ℚ) / 255),
             b := some ((digitsN t3 : ℚ) / 255), a := some 1 } := by
  have ha1' : ∀ x ∈ t1, isDigitDot x = true :=
    fun x hx => isDigitDot_of_isDigit (ha1 x hx)
  have ha2' : ∀ x ∈ t2, isDigitDot x = true :=
    fun x hx => isDigitDot_of_isDigit (ha2 x hx)
  have ha3' : ∀ x ∈ t3, isDigitDot x = true :=
    fun x hx => isDigitDot_of_isDigit (ha3 x hx)
  unfold parseColor rgbString
  show parseColorL ('r' :: 'g' :: 'b' :: '(' ::
    (t1 ++ ',' :: ' ' :: (t2 ++ ',' :: ' ' :: (t3 ++ [')'])))) = _
  unfold parseColorL
  rw [if_neg]
  · have hfind : findColorMatch ('r' :: 'g' :: 'b' :: '(' ::
        (t1 ++ ',' :: ' ' :: (t2 ++ ',' :: ' ' :: (t3 ++ [')'])))) =
        some (t1, t2, t3, none) := by
      simp only [findColorMatch, tryColorHere]
      rw [matchArgs_three t1 t2 t3 h1 ha1' h2 ha2' h3 ha3']
    rw [hfind]
    simp only [jsParseFloat_digits h1 ha1, jsParseFloat_digits h2 ha2,
      jsParseFloat_digits h3 ha3, Option.map_some, qdivN_eq]
    norm_num
  · rintro (h | h | h)
    · simp [List.isEmpty] at h
    · have ht : "transparent".data = ['t', 'r', 'a', 'n', 's', 'p', 'a', 'r',
        'e', 'n', 't'] := rfl
      rw [ht] at h
      simp at h
    · have hb : "rgba(0, 0, 0, 0)".data = ['r', 'g', 'b', 'a', '(', '0', ',',
        ' ', '0', ',', ' ', '0', ',', ' ', '0', ')'] := rfl
      rw [hb] at h
      simp at h

/-- Claim C1: (corrected).  For every canonically serialized `rgba(r, g, b, a)` /
`rgb(r, g, b)` string, `parseColor` returns channels `r/255, g/255, b/255` and
the written alpha (`1` when omitted); `parseColor` returns `null` for
`"transparent"`, for the exact computed-style serialization
`"rgba(0, 0, 0, 0)"` of fully-transparent black, and for unrecognized syntax
(e.g. the keyword `"red"`).  (The original claim's "every string denoting
fully-transparent black" fails: see the counterexample.) -/
theorem C1_parseColor_spec :
    (∀ t1 t2 t3 t4 : List Char,
      t1 ≠ [] → (∀ x ∈ t1, x.isDigit = true) →
      t2 ≠ [] → (∀ x ∈ t2, x.isDigit = true) →
      t3 ≠ [] → (∀ x ∈ t3, x.isDigit = true) →
      t4 ≠ [] → (∀ x ∈ t4, isDigitDot x = true) →
      ∀ av : ℚ, jsParseFloat t4 = some av →
      rgbaString t1 t2 t3 t4 ≠ "rgba(0, 0, 0, 0)" →
      parseColor (rgbaString t1 t2 t3 t4) =
        some { r := some ((digitsN t1 : ℚ) / 255)
               g := some ((digitsN t2 : ℚ) / 255)
               b := some ((digitsN t3 : ℚ) / 255)
               a := some av }) ∧
    (∀ t1 t2 t3 : List Char,
      t1 ≠ [] → (∀ x ∈ t1, x.isDigit = true) →
      t2 ≠ [] → (∀ x ∈ t2, x.isDigit = true) →
      t3 ≠ [] → (∀ x ∈ t3, x.isDigit = true) →
      parseColor (rgbString t1 t2 t3) =
        some { r := some ((digitsN t1 : ℚ) / 255)
               g := some ((digitsN t2 : ℚ) / 255)
               b := some ((digitsN t3 : ℚ) / 255)
               a := some 1 }) ∧
    parseColor "transparent" = none ∧
    parseColor "rgba(0, 0, 0, 0)" = none ∧
    parseColor "red" = none := by
  refine ⟨?_, ?_, by decide, by decide, by decide⟩
  · intro t1 t2 t3 t4 h1 ha1 h2 ha2 h3 ha3 h4 ha4 av hav hblk
    exact parseColor_rgba_general t1 t2 t3 t4 h1 ha1 h2 ha2 h3 ha3 h4 ha4 av hav hblk
  · intro t1 t2 t3 h1 ha1 h2 ha2 h3 ha3
    exact parseColor_rgb_general t1 t2 t3 h1 ha1 h2 ha2 h3 ha3

/-- Claim C1: witness: the general theorem applied at `rgba(12, 34, 56, 0.5)` and
`rgb(255, 0, 0)`. -/
theorem C1_parseColor_spec_witness :
    parseColor (rgbaString ['1','2'] ['3','4'] ['5','6'] ['0','.','5']) =
      some { r := some ((digitsN ['1','2'] : ℚ) / 255)
             g := some ((digitsN ['3','4'] : ℚ) / 255)
             b := some ((digitsN ['5','6'] : ℚ) / 255)
             a := some (mkRat 5 10) } ∧
    parseColor (rgbString ['2','5','5'] ['0'] ['0']) =
      some { r := some ((digitsN ['2','5','5'] : ℚ) / 255)
             g := some ((digitsN ['0'] : ℚ) / 255)
             b := some ((digitsN ['0'] : ℚ) / 255)
             a := some 1 } :=
  ⟨C1_parseColor_spec.1 ['1','2'] ['3','4'] ['5','6'] ['0','.','5']
      (by decide) (by decide) (by decide) (by decide) (by decide) (by decide)
      (by decide) (by decide) (mkRat 5 10) (by decide) (by decide),
   C1_parseColor_spec.2.1 ['2','5','5'] ['0'] ['0']
      (by decide) (by decide) (by decide) (by decide) (by decide) (by decide)⟩

/-- Claim C1: counterexample: `"rgba(0,0,0,0)"` (without spaces) denotes
fully-transparent black, yet `parseColor` returns a record with alpha `0`
instead of `null` — the null check compares against the exact string
`'rgba(0, 0, 0, 0)'` only. -/
theorem C1_parseColor_counterexample :
    parseColor "rgba(0,0,0,0)" =
      some { r := some 0, g := some 0, b := some 0, a := some 0 } ∧
    parseColor "rgba(0,0,0,0)" ≠ none := by
  constructor
  · decide
  · decide


theorem splitAux_append (s₁ : List Char) :
    ∀ (rest : List Char) (d : ℤ) (cur : List Char),
    noCommaAtTop s₁ d = true →
    splitAux (s₁ ++ rest) d cur = splitAux rest (depthAfter d s₁) (cur ++ s₁) := by
  induction s₁ with
  | nil =>
    intro rest d cur _
    simp [depthAfter]
  | cons ch tail ih =>
    intro rest d cur h
    unfold noCommaAtTop at h
    by_cases hc : ch = ',' ∧ stepDepth d ch = 0
    · rw [if_pos hc] at h
      exact absurd h (by simp)
    · rw [if_neg hc] at h
      have hstep : splitAux (ch :: (tail ++ rest)) d cur =
          splitAux (tail ++ rest) (stepDepth d ch) (cur ++ [ch]) := by
        show (let d2 := stepDepth d ch
              if ch = ',' ∧ d2 = 0 then cur :: splitAux (tail ++ rest) d2 []
              else splitAux (tail ++ rest) d2 (cur ++ [ch])) = _
        simp only [if_neg hc]
      show splitAux (ch :: (tail ++ rest)) d cur = _
      rw [hstep, ih rest (stepDepth d ch) (cur ++ [ch]) h]
      have hdep : depthAfter d (ch :: tail) = depthAfter (stepDepth d ch) tail := rfl
      rw [hdep]
      simp [List.append_assoc]

/-- Splitting at a top-level comma: the text before it (comma-free at depth 0
and parenthesis-balanced) becomes one part, and splitting continues after it. -/
theorem splitGradientParts_top_comma (s₁ s₂ : List Char)
    (h : noCommaAtTop s₁ 0 = true) (hd : depthAfter 0 s₁ = 0) :
    splitGradientParts (s₁ ++ ',' :: s₂) = s₁ :: splitGradientParts s₂ := by
  unfold splitGradientParts
  rw [splitAux_append s₁ (',' :: s₂) 0 [] h, hd]
  simp [splitAux]

/-- Claim C2: (corrected).  `parseGradient "linear-gradient(90deg, red 0%, blue 100%)"`
returns `null` (for any values of the trigonometric primitives): the keyword
colors `red` and `blue` are not recognized by `parseColor`, so no color stop
survives and the `< 2` stop check rejects the gradient.  The splitting half of
the claim holds: `splitGradientParts` splits on top-level commas only, so
commas nested inside parentheses (e.g. inside `rgb(...)`) do not fragment the
argument list. -/
theorem C2_parseGradient_spec :
    (∀ mcos msin : ℚ → ℚ,
      parseGradient mcos msin "linear-gradient(90deg, red 0%, blue 100%)" = none) ∧
    (∀ s₁ s₂ : List Char, noCommaAtTop s₁ 0 = true → depthAfter 0 s₁ = 0 →
      splitGradientParts (s₁ ++ ',' :: s₂) = s₁ :: splitGradientParts s₂) := by
  constructor
  · intro mcos msin
    rfl
  · intro s₁ s₂ h hd
    exact splitGradientParts_top_comma s₁ s₂ h hd

/-- Claim C2: witness: the none result at the identity trigonometric primitives,
and the depth-aware split of `"rgb(1,2),x"`: the comma inside `rgb(1,2)` does
not split, the top-level one does. -/
theorem C2_parseGradient_spec_witness :
    parseGradient (fun q => q) (fun q => q)
      "linear-gradient(90deg, red 0%, blue 100%)" = none ∧
    splitGradientParts ("rgb(1,2)".data ++ ',' :: "x".data) =
      "rgb(1,2)".data :: splitGradientParts "x".data :=
  ⟨C2_parseGradient_spec.1 (fun q => q) (fun q => q),
   C2_parseGradient_spec.2 "rgb(1,2)".data "x".data (by decide) (by decide)⟩

/-- Claim C2: counterexample: on the claim's input the parser returns `none`, not
a `GRADIENT_LINEAR` paint with two stops. -/
theorem C2_parseGradient_counterexample :
    parseGradient (fun q => q) (fun q => q)
      "linear-gradient(90deg, red 0%, blue 100%)" = none := by
  decide

/-- Claim C3: (code bug).  The literal direction table in `directionToAngle` maps
`'to top'` to `0`, but the lookup is `map[dir] || 180`, and `0` is falsy in
JS — so the function returns `180` for `"to top"`, contradicting its own
table.  All other table entries (whose values are truthy) are returned as
written, and unknown keywords default to `180`. -/
theorem C3_directionToAngle_to_top_bug :
    directionMap.lookup "to top" = some 0 ∧
    directionToAngle "to top" = 180 ∧
    directionToAngle "to right" = 90 ∧
    directionToAngle "to bottom" = 180 ∧
    directionToAngle "to left" = 270 ∧
    directionToAngle "to top right" = 45 ∧
    directionToAngle "to top left" = 315 ∧
    directionToAngle "to bottom right" = 135 ∧
    directionToAngle "to bottom left" = 225 ∧
    directionToAngle "to somewhere" = 180 := by
  decide

/-- A clause whose remaining text yields fewer than two `px` length tokens is
skipped by the `parseBoxShadow` loop. -/
theorem parseShadowClause_drop (cs : List Char)
    (h : (pxTokens (shadowColorRest cs).2).length < 2) :
    parseShadowClause cs = none := by
  simp only [parseShadowClause]
  rw [if_pos h]

/-- Claim C4: (corrected).  On the claim's input the `inset` clause is dropped —
its unitless zeros (`0 0`) are not `px` tokens, so the clause has fewer than 2
length tokens — and `parseBoxShadow` yields exactly one effect, the
`DROP_SHADOW` with offset `(2,4)` and radius `6`.  Writing the zeros with
units (`inset 0px 0px 10px red`) produces the two claimed effects.  In
general, every clause yielding fewer than 2 length tokens is dropped without
error rather than producing an effect. -/
theorem C4_parseBoxShadow_spec :
    parseBoxShadow "2px 4px 6px rgba(0,0,0,0.5), inset 0 0 10px red" =
      [{ type := "DROP_SHADOW", r := some 0, g := some 0, b := some 0
         a := some (mkRat 1 2), offsetX := some 2, offsetY := some 4
         radius := some 6, spread := some 0, visible := true }] ∧
    parseBoxShadow "2px 4px 6px rgba(0,0,0,0.5), inset 0px 0px 10px red" =
      [{ type := "DROP_SHADOW", r := some 0, g := some 0, b := some 0
         a := some (mkRat 1 2), offsetX := some 2, offsetY := some 4
         radius := some 6, spread := some 0, visible := true },
       { type := "INNER_SHADOW", r := some 0, g := some 0, b := some 0
         a := some (mkRat 1 4), offsetX := some 0, offsetY := some 0
         radius := some 10, spread := some 0, visible := true }] ∧
    (∀ cs : List Char, (pxTokens (shadowColorRest cs).2).length < 2 →
      parseShadowClause cs = none) := by
  refine ⟨by decide, by decide, ?_⟩
  intro cs h
  exact parseShadowClause_drop cs h

/-- Claim C4: witness: the dropping rule applied to the claim's `inset` clause. -/
theorem C4_parseBoxShadow_spec_witness :
    parseShadowClause " inset 0 0 10px red".data = none :=
  C4_parseBoxShadow_spec.2.2 " inset 0 0 10px red".data (by decide)

/-- Claim C4: counterexample: the claim's input yields one effect, not two. -/
theorem C4_parseBoxShadow_counterexample :
    (parseBoxShadow "2px 4px 6px rgba(0,0,0,0.5), inset 0 0 10px red").length
      = 1 := by
  decide

theorem clamp_idem (v : ℚ) : clamp (clamp v) = clamp v := by
  unfold clamp jsMin jsMax
  split_ifs <;> first | rfl | linarith

theorem clamp_one : clamp 1 = 1 := by decide

theorem clamp_nonneg (v : ℚ) : 0 ≤ clamp v := by
  rw [clamp, jsMin_eq, jsMax_eq]
  exact le_min (le_max_right v 0) zero_le_one

theorem clamp_le_one (v : ℚ) : clamp v ≤ 1 := by
  rw [clamp, jsMin_eq]
  exact min_le_right _ 1

theorem sanitizeStop_idem (st : JStopP) :
    sanitizeStop (sanitizeStop st) = sanitizeStop st := by
  cases hst : st.color with
  | none => simp [sanitizeStop, hst, orZero, clamp_idem, clamp_one]
  | some c =>
    cases hca : c.a with
    | none => simp [sanitizeStop, hst, hca, orZero, clamp_idem, clamp_one]
    | some a => simp [sanitizeStop, hst, hca, orZero, clamp_idem]

theorem sanitizeOne_idem (f : JFill)
    (hg : (f.type = "GRADIENT_LINEAR" ∨ f.type = "GRADIENT_RADIAL") →
      f.gradientHandlePositions = none) :
    sanitizeOne (sanitizeOne f) = sanitizeOne f := by
  by_cases hs : f.type = "SOLID"
  · cases hc : f.color with
    | none =>
      cases ho : f.opacity with
      | none => simp [sanitizeOne, hs, hc, ho, orZero, clamp_idem, clamp_one]
      | some o => simp [sanitizeOne, hs, hc, ho, orZero, clamp_idem]
    | some c =>
      cases ho : f.opacity with
      | none => simp [sanitizeOne, hs, hc, ho, orZero, clamp_idem, clamp_one]
      | some o => simp [sanitizeOne, hs, hc, ho, orZero, clamp_idem]
  · by_cases hgl : f.type = "GRADIENT_LINEAR" ∨ f.type = "GRADIENT_RADIAL"
    · have hh := hg hgl
      simp [sanitizeOne, hs, hgl, hh, List.map_map, Function.comp,
        sanitizeStop_idem]
    · simp [sanitizeOne, hs, hgl]

/-- Claim C5: (corrected).  Sanitizing an already-sanitized paint list is a no-op
for every list in which no gradient paint carries handle positions (solid and
unrecognized paints, and gradients whose `gradientHandlePositions` is
absent).  It is not a no-op in general: the first pass converts handle
positions into `gradientTransform` and drops the handles, so the second pass
resets the transform to the identity (see the counterexample). -/
theorem C5_sanitizeFills_idem (l : List JFill)
    (h : ∀ f ∈ l, (f.type = "GRADIENT_LINEAR" ∨ f.type = "GRADIENT_RADIAL") →
      f.gradientHandlePositions = none) :
    sanitizeFills (.arr (sanitizeFills (.arr l))) = sanitizeFills (.arr l) := by
  simp only [sanitizeFills, List.map_map]
  exact List.map_congr_left (fun f hf => sanitizeOne_idem f (h f hf))


/-- Claim C5: witness: idempotence on a list of one solid, one unrecognized and
one handle-free gradient paint. -/
theorem C5_sanitizeFills_idem_witness :
    sanitizeFills (.arr (sanitizeFills (.arr
      [{ type := "SOLID", color := some { r := some 1, g := some 0, b := some 0 }, opacity := some 1 },
       { type := "IMAGE", scaleMode := some "FILL", imageHash := some "h" },
       { type := "GRADIENT_RADIAL", gradientStops := some [] }]))) =
    sanitizeFills (.arr
      [{ type := "SOLID", color := some { r := some 1, g := some 0, b := some 0 }, opacity := some 1 },
       { type := "IMAGE", scaleMode := some "FILL", imageHash := some "h" },
       { type := "GRADIENT_RADIAL", gradientStops := some [] }]) :=
  C5_sanitizeFills_idem
    [{ type := "SOLID", color := some { r := some 1, g := some 0, b := some 0 }, opacity := some 1 },
     { type := "IMAGE", scaleMode := some "FILL", imageHash := some "h" },
     { type := "GRADIENT_RADIAL", gradientStops := some [] }]
    (by decide)

/-- Claim C5: counterexample: a gradient paint whose channels, opacity and stop
position all lie in `[0, 1]`, on which sanitization is not idempotent — the
second pass replaces the transform computed from the handles by the identity
transform. -/
theorem C5_sanitizeFills_counterexample :
    sanitizeFills (.arr (sanitizeFills (.arr [c5GradFill]))) ≠
      sanitizeFills (.arr [c5GradFill]) := by
  decide

/-- Claim C10: (confirmed).  `sanitizeFills` is total at its interface: a missing
or non-array argument yields `[]`, and every fill whose type is none of
`SOLID`, `GRADIENT_LINEAR`, `GRADIENT_RADIAL` passes through unchanged. -/
theorem C10_sanitizeFills_total :
    sanitizeFills .undef = [] ∧
    sanitizeFills .notArray = [] ∧
    (∀ l : List JFill,
      (∀ f ∈ l, f.type ≠ "SOLID" ∧ f.type ≠ "GRADIENT_LINEAR" ∧
        f.type ≠ "GRADIENT_RADIAL") →
      sanitizeFills (.arr l) = l) := by
  refine ⟨rfl, rfl, ?_⟩
  intro l h
  simp only [sanitizeFills]
  have hid : ∀ f ∈ l, sanitizeOne f = f := by
    intro f hf
    obtain ⟨h1, h2, h3⟩ := h f hf
    simp [sanitizeOne, h1, h2, h3]
  rw [List.map_congr_left hid]
  simp

/-- Claim C10: witness: an `IMAGE` fill passes through `sanitizeFills` unchanged. -/
theorem C10_sanitizeFills_total_witness :
    sanitizeFills
      (.arr [{ type := "IMAGE", scaleMode := some "FILL", imageHash := some "h" }]) =
    [{ type := "IMAGE", scaleMode := some "FILL", imageHash := some "h" }] :=
  C10_sanitizeFills_total.2.2
    [{ type := "IMAGE", scaleMode := some "FILL", imageHash := some "h" }]
    (by decide)

theorem parseShadowClause_visible {cs : List Char} {e : JSEffect}
    (h : parseShadowClause cs = some e) : e.visible = true := by
  simp only [parseShadowClause] at h
  split at h
  · exact absurd h (by simp)
  · exact (Option.some.inj h) ▸ rfl

/-- Claim C9: (corrected).  Every effect produced by `parseBoxShadow` has
`visible = true`, and every effect applied by the Materializer has
`radius ≥ 0`, `visible = true`, and color channels and alpha in `[0, 1]`.
The parser does not clamp the blur radius, so an IR effect can carry a
negative radius (see the counterexample); nonnegativity is only established
by the Materializer's `Math.max(radius || 0, 0)`. -/
theorem C9_effects_spec :
    (∀ s : String, ∀ e ∈ parseBoxShadow s, e.visible = true) ∧
    (∀ e : JEffectIn,
      0 ≤ (sanitizeEffect e).radius ∧ (sanitizeEffect e).visible = true ∧
      0 ≤ (sanitizeEffect e).r ∧ (sanitizeEffect e).r ≤ 1 ∧
      0 ≤ (sanitizeEffect e).g ∧ (sanitizeEffect e).g ≤ 1 ∧
      0 ≤ (sanitizeEffect e).b ∧ (sanitizeEffect e).b ≤ 1 ∧
      0 ≤ (sanitizeEffect e).a ∧ (sanitizeEffect e).a ≤ 1) := by
  constructor
  · intro s e he
    unfold parseBoxShadow parseBoxShadowL at he
    by_cases hc : s.data.isEmpty = true ∨ s.data = "none".data
    · rw [if_pos hc] at he
      simp at he
    · rw [if_neg hc] at he
      obtain ⟨c, _, hcl⟩ := List.mem_filterMap.mp he
      exact parseShadowClause_visible hcl
  · intro e
    simp only [sanitizeEffect]
    refine ⟨?_, trivial, clamp_nonneg _, clamp_le_one _, clamp_nonneg _,
      clamp_le_one _, clamp_nonneg _, clamp_le_one _, ?_, ?_⟩
    · rw [jsMax_eq]
      exact le_max_right _ 0
    · cases h : (e.color.getD {}).a with
      | none => simp [h]
      | some a => simp [h, clamp_nonneg]
    · cases h : (e.color.getD {}).a with
      | none => simp [h]
      | some a => simp [h, clamp_le_one]

/-- Claim C9: witness: the visibility part at a concrete shadow string, and the
applied-effect part at the empty effect object. -/
theorem C9_effects_spec_witness :
    ({ type := "DROP_SHADOW", r := some 0, g := some 0, b := some 0
       a := some (mkRat 1 4), offsetX := some 1, offsetY := some 2
       radius := some 0, spread := some 0, visible := true } : JSEffect).visible
      = true ∧
    0 ≤ (sanitizeEffect {}).radius :=
  ⟨C9_effects_spec.1 "1px 2px" _ (by decide), (C9_effects_spec.2 {}).1⟩

/-- Claim C9: counterexample: `parseBoxShadow` emits an effect with a negative
radius for a negative blur token, so "every effect in the IR has radius ≥ 0"
fails. -/
theorem C9_effects_counterexample :
    parseBoxShadow "1px 2px -3px" =
      [{ type := "DROP_SHADOW", r := some 0, g := some 0, b := some 0
         a := some (mkRat 1 4), offsetX := some 1, offsetY := some 2
         radius := some (mkRat (-3) 1), spread := some 0, visible := true }] ∧
    (mkRat (-3) 1 : ℚ) < 0 := by
  constructor
  · decide
  · decide

theorem applyStrokes_kind (n : IRFields) (p : SProps) :
    (applyStrokes n p).kind = p.kind := by
  unfold applyStrokes
  split <;> rfl

theorem applyStrokes_fills (n : IRFields) (p : SProps) :
    (applyStrokes n p).fills = p.fills := by
  unfold applyStrokes
  split <;> rfl

theorem applyCornerRadius_kind (n : IRFields) (p : SProps) :
    (applyCornerRadius n p).kind = p.kind := by
  unfold applyCornerRadius
  split <;> rfl

theorem applyCornerRadius_fills (n : IRFields) (p : SProps) :
    (applyCornerRadius n p).fills = p.fills := by
  unfold applyCornerRadius
  split <;> rfl

theorem applyEffects_kind (n : IRFields) (p : SProps) :
    (applyEffects n p).kind = p.kind := by
  unfold applyEffects
  split <;> rfl

theorem applyEffects_fills (n : IRFields) (p : SProps) :
    (applyEffects n p).fills = p.fills := by
  unfold applyEffects
  split <;> rfl

/-- Claim C6: (confirmed).  `createTextNode` wraps the text primitive in a frame
exactly when the IR node carries a non-empty `backgroundFills`, a non-empty
`strokes` list, a nonzero (truthy) corner-radius field, or a non-empty
`effects` list.  The wrapper is a frame whose fills are the sanitized
*background* fill set (empty when only a border/radius/shadow forced the
wrapper — never the text-color `fills`), holding exactly one child, the text
primitive, at local offset `(0, 0)`.  Without the condition the text
primitive is returned directly, with no children. -/
theorem C6_createTextNode_spec (env : MatEnv) (node : IRFields) :
    ((nonEmptyList node.backgroundFills || nonEmptyList node.strokes ||
        (truthyQ node.topLeftRadius || truthyQ node.topRightRadius ||
         truthyQ node.bottomRightRadius || truthyQ node.bottomLeftRadius) ||
        nonEmptyList node.effects) = true →
      (createTextNode env node).props.kind = "FRAME" ∧
      (nonEmptyList node.backgroundFills = true →
        (createTextNode env node).props.fills =
          some (sanitizeFills (.arr (node.backgroundFills.getD [])))) ∧
      (nonEmptyList node.backgroundFills = false →
        (createTextNode env node).props.fills = some []) ∧
      ∃ inner : SNode, (createTextNode env node).childList = [inner] ∧
        inner.props.kind = "TEXT" ∧ inner.props.x = 0 ∧ inner.props.y = 0) ∧
    ((nonEmptyList node.backgroundFills || nonEmptyList node.strokes ||
        (truthyQ node.topLeftRadius || truthyQ node.topRightRadius ||
         truthyQ node.bottomRightRadius || truthyQ node.bottomLeftRadius) ||
        nonEmptyList node.effects) = false →
      (createTextNode env node).props.kind = "TEXT" ∧
      (createTextNode env node).childList = []) := by
  constructor
  · intro hcond
    simp only [createTextNode, hcond, if_true]
    refine ⟨?_, ?_, ?_, ?_⟩
    · rw [SNode.props, applyEffects_kind, applyCornerRadius_kind,
        applyStrokes_kind]
    · intro hbg
      rw [SNode.props, applyEffects_fills, applyCornerRadius_fills,
        applyStrokes_fills]
      simp [hbg]
    · intro hbg
      rw [SNode.props, applyEffects_fills, applyCornerRadius_fills,
        applyStrokes_fills]
      simp [hbg]
    · exact ⟨_, rfl, rfl, rfl, rfl⟩
  · intro hcond
    simp only [createTextNode, hcond, if_false]
    exact ⟨rfl, rfl⟩


/-- Claim C6: witness: on a text node with a background fill the wrapper frame is
created, carries the sanitized background fills, and holds the single text
child at local offset `(0, 0)`. -/
theorem C6_createTextNode_spec_witness :
    (createTextNode allOkEnv c6TextIR).props.kind = "FRAME" ∧
    (createTextNode allOkEnv c6TextIR).props.fills =
      some (sanitizeFills (.arr (c6TextIR.backgroundFills.getD []))) ∧
    ∃ inner : SNode, (createTextNode allOkEnv c6TextIR).childList = [inner] ∧
      inner.props.kind = "TEXT" ∧ inner.props.x = 0 ∧ inner.props.y = 0 := by
  have h := (C6_createTextNode_spec allOkEnv c6TextIR).1 (by decide)
  exact ⟨h.1, h.2.1 (by decide), h.2.2.2⟩

/-- Claim C7: (corrected).  The root container is sized to
`(viewportWidth || 1440, fullHeight || viewportHeight || 900)`: for a document
carrying nonzero `viewportWidth` and `fullHeight` the size is
`(viewportWidth, fullHeight)` — not `max(fullHeight, viewportHeight)` as
claimed; when `fullHeight` is smaller than `viewportHeight` the smaller value
is used (see the counterexample). -/
theorem C7_rootFrameSize_spec (env : MatEnv) (d : IRDoc) (vw fh : ℚ)
    (r : IRNode) (hr : d.rootNode = some r)
    (hvw : d.viewportWidth = some vw) (hvw0 : vw ≠ 0)
    (hfh : d.fullHeight = some fh) (hfh0 : fh ≠ 0) :
    resultRootSize (handleImport env { type := "import-design", data := some d })
      = some (vw, fh) := by
  simp only [handleImport, hr, rootFrameSize, hvw, hfh, orDQ]
  rw [if_neg hvw0, if_neg hfh0]
  simp [resultRootSize, setFramePos]


/-- Claim C7: witness: the amended sizing rule at a long page
(`fullHeight = 2000 > viewportHeight = 768`). -/
theorem C7_rootFrameSize_spec_witness :
    resultRootSize (handleImport allOkEnv
      { type := "import-design"
        data := some { viewportWidth := some 1024
                       viewportHeight := some 768
                       fullHeight := some 2000
                       rootNode := some (.mk { type := some "FRAME" } []) } })
      = some (1024, 2000) :=
  C7_rootFrameSize_spec allOkEnv
    { viewportWidth := some 1024
      viewportHeight := some 768
      fullHeight := some 2000
      rootNode := some (.mk { type := some "FRAME" } []) }
    1024 2000 (.mk { type := some "FRAME" } []) rfl rfl (by decide) rfl (by decide)

/-- Claim C7: counterexample: on a short page the root height is `fullHeight`
(500), not `max(fullHeight, viewportHeight)` (which is 900). -/
theorem C7_rootFrameSize_counterexample :
    resultRootSize (handleImport allOkEnv
      { type := "import-design", data := some c7ShortDoc }) = some (1440, 500) ∧
    max (500 : ℚ) 900 = 900 ∧ (500 : ℚ) ≠ 900 := by
  refine ⟨by decide, ?_, by decide⟩
  rw [max_def]
  norm_num

/-- Claim C8: (confirmed).  An `import-design` message whose IR document is
missing or lacks a `rootNode` makes the handler return before any target-tool
mutation: no scene node is constructed, and the failure surfaces as the single
notification `❌ Invalid design.json — missing rootNode`. -/
theorem C8_abort_spec (env : MatEnv) (msg : UIMsg)
    (ht : msg.type = "import-design")
    (hbad : msg.data = none ∨ ∃ d : IRDoc, msg.data = some d ∧ d.rootNode = none) :
    handleImport env msg = .aborted "❌ Invalid design.json — missing rootNode" ∧
    createdRoot (handleImport env msg) = none ∧
    abortNotice (handleImport env msg) =
      some "❌ Invalid design.json — missing rootNode" := by
  have hmain : handleImport env msg =
      .aborted "❌ Invalid design.json — missing rootNode" := by
    unfold handleImport
    rw [if_pos ht]
    rcases hbad with h | ⟨d, hd, hroot⟩
    · rw [h]
    · rw [hd]
      simp only [hroot]
  exact ⟨hmain, by rw [hmain]; rfl, by rw [hmain]; rfl⟩

/-- Claim C8: witness: the abort at a concrete message with no IR document. -/
theorem C8_abort_spec_witness :
    handleImport allOkEnv { type := "import-design" } =
      .aborted "❌ Invalid design.json — missing rootNode" ∧
    createdRoot (handleImport allOkEnv { type := "import-design" }) = none ∧
    abortNotice (handleImport allOkEnv { type := "import-design" }) =
      some "❌ Invalid design.json — missing rootNode" :=
  C8_abort_spec allOkEnv { type := "import-design" } rfl (Or.inl rfl)
